import Mathlib

/-!
Verification of the Get-Me-That-String file-search server against its
natural-language specification.  The Python sources under `src/core` are
shallowly embedded: strings are `List Char` (Python strings are sequences of
code points), Python's arbitrary-precision ints are `Int`/`Nat`, fallible
operations return `Except`/`Option`, and the per-connection handler is a pure
function of its inputs plus the abstracted behaviour of the engine calls.
-/

namespace GetMeThatString

/-! ## Python string primitives -/

/-- The set of characters stripped by Python's no-argument `str.strip()`
(ASCII whitespace; the corpus and queries in this system are ASCII/UTF-8
text lines, for which this is Python's behaviour). -/
def isPyWhitespace (c : Char) : Bool :=
  c == ' ' || c == '\t' || c == '\n' || c == '\r' || c == '\x0b' || c == '\x0c'

/-- Remove the longest prefix of characters satisfying `p`
(the left half of Python's `str.strip`). -/
def dropLeading (p : Char → Bool) (s : List Char) : List Char :=
  s.dropWhile p

/-- Remove the longest suffix of characters satisfying `p`
(the right half of Python's `str.strip`). -/
def dropTrailing (p : Char → Bool) (s : List Char) : List Char :=
  (s.reverse.dropWhile p).reverse

/-- Python's `str.strip` restricted to a character predicate: remove the
longest prefix and suffix of characters satisfying `p`. -/
def pyStripPred (p : Char → Bool) (s : List Char) : List Char :=
  dropTrailing p (dropLeading p s)

/-- The call `line.strip()` as used by `SearchAlgorithm._read_lines`. -/
def pyStrip (s : List Char) : List Char :=
  pyStripPred isPyWhitespace s

/-- The call `.strip("\x00")` as used by `FileSearchServer._handle_client`:
strips NUL characters from BOTH ends of the decoded request. -/
def stripNul (s : List Char) : List Char :=
  pyStripPred (· == '\x00') s

/-- Accumulator worker for `splitLinesKeepEnds`; `cur` holds the current
line reversed. -/
def splitLinesGo (cur : List Char) : List Char → List (List Char)
  | [] => if cur.isEmpty then [] else [cur.reverse]
  | c :: rest =>
    if c = '\n' then (cur.reverse ++ ['\n']) :: splitLinesGo [] rest
    else splitLinesGo (c :: cur) rest

/-- Iterating a Python text file yields its lines with the terminating
newline kept (the last line is yielded without one when the file does not
end in a newline); this splits a file's contents the same way. -/
def splitLinesKeepEnds (s : List Char) : List (List Char) :=
  splitLinesGo [] s

/-! ## Corpus loading (`src/core/algorithms/base.py`) -/

/-- Body of `SearchAlgorithm._read_lines` on a file whose contents are
`content`: `[line.strip() for line in f]`. -/
def read_lines (content : List Char) : List (List Char) :=
  (splitLinesKeepEnds content).map pyStrip

/-- The outcome of opening and reading the corpus file. -/
inductive FileRead where
  | content (s : List Char)
  | ioError
  deriving Repr, DecidableEq

/-- Behaviour of `SearchAlgorithm._read_lines` including its `handle_file_operations`
decorator: any `FileNotFoundError` or other `Exception` while reading is
turned into `sys.exit(1)`, i.e. a `SystemExit` carrying exit code 1,
modelled as `Except.error 1`. -/
def read_lines_result : FileRead → Except Nat (List (List Char))
  | .content s => .ok (read_lines s)
  | .ioError => .error 1


/-! ## The exact-match strategies
(`linear_search.py`, `set_search.py`, `aho_corasick_search.py`) -/

/-- Body of `LinearSearch.search`: `for line in self._data: if line == query:
return True` then `return False`. -/
def linear_search (data : List (List Char)) (query : List Char) : Bool :=
  data.any (fun line => line == query)

/-- Build of `SetSearch._read_data`: `set(self._read_lines(file_path))`.  A Python
set of strings is modelled by the list of its elements; membership is the
only operation performed on it. -/
def set_build (lines : List (List Char)) : List (List Char) :=
  lines

/-- Body of `SetSearch.search`: `query in self._data`. -/
def set_search (data : List (List Char)) (query : List Char) : Bool :=
  data.contains query

/-- The call `ahocorasick.Automaton.add_word(line, line)`: the automaton is an
external library object, modelled by the list of keys added to it.
pyahocorasick silently rejects an empty key — `add_word("")` returns
`False` without inserting — so only nonempty lines become keys. -/
def aho_add (autom : List (List Char)) (word : List Char) : List (List Char) :=
  if word = [] then autom else autom ++ [word]

/-- Build of `AhoCorasickSearch._read_data`: adds every stripped line as a
key, except that empty lines are silently dropped by `add_word`.
(`make_automaton` only freezes the trie; it does not change the key set.) -/
def aho_build (lines : List (List Char)) : List (List Char) :=
  lines.foldl aho_add []

/-- Body of `AhoCorasickSearch.search`: `query in self._data`, which for the
pyahocorasick automaton is exact key membership. -/
def aho_search (autom : List (List Char)) (query : List Char) : Bool :=
  autom.contains query

/-! ## Boyer-Moore (`boyer_moore_search.py`) -/

/-- Table `BoyerMooreSearch._bad_character_table` read through `dict.get(c, -1)`:
for `i in range(m)` the table assigns `bad_char[pattern[i]] = i`, so a
lookup returns the LAST index of `c` in `pattern`, or `-1`. -/
def bad_char (pattern : List Char) (c : Char) : Int :=
  pattern.enum.foldl (fun acc ic => if ic.2 = c then (ic.1 : Int) else acc) (-1)

/-- The inner `while j >= 0 and pattern[j] == text[s + j]` loop.  The
argument `k` is `j + 1` for Python's `j`; the result is `none` when the
loop ran `j` below zero (full match at shift `s`) and `some j` at the
first mismatch. -/
def bmInner (text pattern : List Char) (s : Nat) : Nat → Option Nat
  | 0 => none
  | k + 1 =>
    if pattern.getD k ' ' = text.getD (s + k) ' ' then bmInner text pattern s k
    else some k

/-- The outer `while s <= n - m` loop of `BoyerMooreSearch.boyer_moore`.
Each iteration increases `s` by at least 1, so a fuel of `n - m + 1`
iterations is enough to reach the loop's exit condition. -/
def bmLoop (text pattern : List Char) : Nat → Nat → Bool
  | 0, _ => false
  | fuel + 1, s =>
    if s + pattern.length ≤ text.length then
      match bmInner text pattern s pattern.length with
      | none => true
      | some j =>
        let l := bad_char pattern (text.getD (s + j) ' ')
        bmLoop text pattern fuel (s + (max 1 ((j : Int) - l)).toNat)
    else false

/-- Function `BoyerMooreSearch.boyer_moore(text, pattern)`: returns whether
`pattern` occurs as a SUBSTRING of `text` (the shift loop reports success
at any alignment, with no anchoring to the full line). -/
def boyer_moore (text pattern : List Char) : Bool :=
  if pattern.length > text.length then false
  else bmLoop text pattern (text.length - pattern.length + 1) 0

/-- Body of `BoyerMooreSearch.search`: `for line in self._data:
if self.boyer_moore(line, query): return True` then `return False`. -/
def bm_search (data : List (List Char)) (query : List Char) : Bool :=
  data.any (fun line => boyer_moore line query)

/-! ## Rabin-Karp (`rabin_karp_search.py`) -/

/-- The polynomial hash `prime * acc + ord(c)` folded over a string, as
computed by the `for i in range(m)` loop of `rabin_karp`. -/
def rkHash (prime : Int) (s : List Char) : Int :=
  s.foldl (fun acc c => prime * acc + (c.toNat : Int)) 0

/-- The `for i in range(n - m + 1)` loop of `rabin_karp`: `iters` counts
the remaining iterations, `i` is the current shift and `th` the rolling
hash of `text[i : i + m]`.  The hash is only rolled while `i < n - m`,
exactly as in the source. -/
def rkLoop (text pattern : List Char) (prime h ph : Int) :
    Nat → Nat → Int → Bool
  | 0, _, _ => false
  | iters + 1, i, th =>
    if ph = th ∧ (text.drop i).take pattern.length = pattern then true
    else
      let th' :=
        if i < text.length - pattern.length then
          prime * (th - (text.getD i ' ').toNat * h) +
            ((text.getD (i + pattern.length) ' ').toNat : Int)
        else th
      rkLoop text pattern prime h ph iters (i + 1) th'

/-- Function `RabinKarpSearch.rabin_karp(text, pattern, prime)`: returns whether
`pattern` occurs as a SUBSTRING of `text` (candidate shifts are confirmed
by slice equality `text[i : i + m] == pattern`, unanchored). -/
def rabin_karp (text pattern : List Char) (prime : Int) : Bool :=
  let n := text.length
  let m := pattern.length
  if m > n then false
  else
    rkLoop text pattern prime (prime ^ (m - 1)) (rkHash prime pattern)
      (n - m + 1) 0 (rkHash prime (text.take m))

/-- Body of `RabinKarpSearch.search` (the Python default `prime=101` is used
at every call site). -/
def rk_search (data : List (List Char)) (query : List Char) : Bool :=
  data.any (fun line => rabin_karp line query 101)

/-! ## Per-strategy corpus builds and reload (`base.py`) -/

/-- The strategies of `src/core/algorithms` that use the shared
`SearchAlgorithm` base class. -/
inductive StratKind where
  | linear | set | ahoCorasick | boyerMoore | rabinKarp | regex
  | multiprocessing
  deriving Repr, DecidableEq

/-- Each strategy's `_read_data`: all of them start from the decorated
`_read_lines`, whose failure (`sys.exit(1)`) propagates; Set and
Aho-Corasick then post-process the successfully read lines. -/
def strat_read_data (k : StratKind) (fr : FileRead) :
    Except Nat (List (List Char)) :=
  match k with
  | .set => (read_lines_result fr).map set_build
  | .ahoCorasick => (read_lines_result fr).map aho_build
  | _ => read_lines_result fr

/-- Method `SearchAlgorithm.reload_data`: `self._data = self._read_data(path)`;
its result is the new corpus representation, or the `SystemExit` code. -/
def reload_data (k : StratKind) (fr : FileRead) :
    Except Nat (List (List Char)) :=
  strat_read_data k fr

/-- Whether the server process is still serving or has terminated. -/
inductive ProcessOutcome where
  | running
  | exited (code : Nat)
  deriving Repr, DecidableEq, BEq

/-- Where a reload runs: on the main thread (the startup reload in
`SearchAlgorithm.__init__`, before the accept loop starts) or on a
`ThreadPoolExecutor` worker (the per-query reload performed by
`_handle_client` under `reread_on_query`). -/
inductive ExecContext where
  | mainThread
  | workerThread
  deriving Repr, DecidableEq

/-- How a reload lands at process level.  Modelled from the Python
runtime and the `concurrent.futures` worker loop, which are external to
this repository: `sys.exit(code)` raises `SystemExit(code)`, which
terminates the process with that code when it reaches the top of the
MAIN thread, while the thread-pool worker catches any `BaseException`
from a submitted handler and stores it in the `Future`, leaving the
process serving. -/
def reload_failure_outcome (ctx : ExecContext) (k : StratKind)
    (fr : FileRead) : ProcessOutcome :=
  match reload_data k fr with
  | .ok _ => .running
  | .error code =>
    match ctx with
    | .mainThread => .exited code
    | .workerThread => .running

/-! ## The reread-on-query decorator (`base.py`) and the handler's
pre-search reload (`server.py` lines 119-120) -/

/-- Decorator `reread_on_query_if_required` around a pure `search` body `searchFn`:
if `config.reread_on_query` the corpus is rebuilt from the file before the
body runs.  Returns the search result and the corpus representation held
after the call. -/
def reread_wrap (reread : Bool) (file : List Char)
    (searchFn : List (List Char) → List Char → Bool)
    (st : List (List Char)) (q : List Char) : Bool × List (List Char) :=
  let st2 := if reread then read_lines file else st
  (searchFn st2 q, st2)

/-- One query as the server issues it: `_handle_client` calls
`reload_data()` when `reread_on_query` is set (server.py 119-120) and then
`search`, which is itself wrapped by `reread_on_query_if_required`. -/
def server_query (reread : Bool) (file : List Char)
    (searchFn : List (List Char) → List Char → Bool)
    (st : List (List Char)) (q : List Char) : Bool × List (List Char) :=
  let st1 := if reread then read_lines file else st
  reread_wrap reread file searchFn st1 q

/-! ## The per-connection request handler (`server.py` lines 101-152) -/

/-- What `recv(1024).decode("utf-8")` produced: a socket timeout, a decode
failure (a `UnicodeDecodeError`, an ordinary `Exception`), or the decoded
string. -/
inductive RecvResult where
  | timeout
  | decodeFail
  | ok (s : List Char)
  deriving Repr, DecidableEq

/-- How the `reload_data()` call behaves, classified by Python exception
class: it returns, raises an `Exception`, or raises a `SystemExit` (what
`handle_file_operations` actually raises, via `sys.exit(1)`, on an I/O
failure).  `except Exception` does not catch `SystemExit`. -/
inductive ExcBeh where
  | normal
  | exc
  | sysExit
  deriving Repr, DecidableEq

/-- How the `search(data)` call behaves: returns a boolean, raises an
`Exception` (e.g. `re.error` from an invalid pattern in `RegexSearch`),
or raises a `SystemExit` (reload failure inside the search decorator). -/
inductive SearchBeh where
  | ret (b : Bool)
  | exc
  | sysExit
  deriving Repr, DecidableEq

/-- Observable outcome of `_handle_client` on one connection. -/
structure HandlerResult where
  /-- The line sent back on the socket, if any. -/
  response : Option String
  /-- Whether `self.search_algorithm.reload_data()` was invoked. -/
  reloadCalled : Bool
  /-- Whether `self.search_algorithm.search(...)` was invoked. -/
  searchCalled : Bool
  /-- The query string passed to `search`, when it was invoked. -/
  queryPassed : Option (List Char)
  /-- Whether an exception escaped the handler (only `SystemExit` can:
  both `except socket.timeout` and `except Exception` catch everything
  else raised in the `try` block). -/
  propagates : Bool
  deriving Repr, DecidableEq

/-- The generic error line of `server.py` line 150 (spelling as in the
source). -/
def errLine : String := "Error: Unexpected error occured\n"

/-- The part of `_handle_client` from the `search` call on, given the
corpus state `rc` (whether reload was called) and the normalized query. -/
def run_search (rc : Bool) (data : List Char) (sb : SearchBeh) :
    HandlerResult :=
  match sb with
  | .ret true => ⟨some "STRING EXISTS\n", rc, true, some data, false⟩
  | .ret false => ⟨some "STRING NOT FOUND\n", rc, true, some data, false⟩
  | .exc => ⟨some errLine, rc, true, some data, false⟩
  | .sysExit => ⟨none, rc, true, some data, true⟩

/-- Handler `FileSearchServer._handle_client` (lines 101-152): receive, decode,
strip NULs, short-circuit the empty query, optionally reload, search, and
map the outcome to a wire response; `socket.timeout` is answered with
`STRING NOT FOUND`, any other `Exception` with the generic error line,
while a `SystemExit` passes the `except Exception` clause uncaught. -/
def handle_client (reread : Bool) (rv : RecvResult) (rb : ExcBeh)
    (sb : SearchBeh) : HandlerResult :=
  match rv with
  | .timeout => ⟨some "STRING NOT FOUND\n", false, false, none, false⟩
  | .decodeFail => ⟨some errLine, false, false, none, false⟩
  | .ok s =>
    let data := stripNul s
    if data = [] then ⟨some "STRING NOT FOUND\n", false, false, none, false⟩
    else if reread then
      match rb with
      | .normal => run_search true data sb
      | .exc => ⟨some errLine, true, false, none, false⟩
      | .sysExit => ⟨none, true, false, none, true⟩
    else run_search false data sb

/-! ## Algorithm resolution (`server.py` lines 33-53) -/

/-- Python's `str.lower()` on the ASCII algorithm names used here. -/
def pyLower (s : List Char) : List Char :=
  s.map Char.toLower

/-- The map `pyLower` packaged on `String`. -/
def pyLowerS (s : String) : String :=
  String.mk (pyLower s.data)

/-- Python's `str.capitalize()`: first character upper-cased, the rest
lower-cased. -/
def pyCapitalize : List Char → List Char
  | [] => []
  | c :: rest => c.toUpper :: rest.map Char.toLower

/-- Worker for `pySplit`; `cur` holds the current word reversed. -/
def pySplitGo (cur : List Char) : List Char → List (List Char)
  | [] => if cur.isEmpty then [] else [cur.reverse]
  | c :: rest =>
    if isPyWhitespace c then
      if cur.isEmpty then pySplitGo [] rest
      else cur.reverse :: pySplitGo [] rest
    else pySplitGo (c :: cur) rest

/-- Python's no-argument `str.split()`: words separated by runs of
whitespace, with no empty words. -/
def pySplit (s : List Char) : List (List Char) :=
  pySplitGo [] s

/-- The strategy classes the loader can hand back. -/
inductive Strategy where
  | linear | set | ahoCorasick | boyerMoore | rabinKarp | regex
  | multiprocessing | mmap
  deriving Repr, DecidableEq, BEq

/-- The pair `importlib.import_module(module)` followed by `getattr(module, cls)`
over the files actually present in `src/core/algorithms`: the lookup
succeeds exactly for an existing module file and a class name defined in
it.  (`base.py` defines no `*Search` class and `mmap_search.py` defines
`MMapSearch`, whose double capital no `str.capitalize()` output can
produce.) -/
def resolveClass (module cls : String) : Option Strategy :=
  if module == "core.algorithms.linear_search" && cls == "LinearSearch" then
    some .linear
  else if module == "core.algorithms.set_search" && cls == "SetSearch" then
    some .set
  else if module == "core.algorithms.regex_search" && cls == "RegexSearch" then
    some .regex
  else if module == "core.algorithms.multiprocessing_search" &&
      cls == "MultiprocessingSearch" then
    some .multiprocessing
  else if module == "core.algorithms.aho_corasick_search" &&
      cls == "AhoCorasickSearch" then
    some .ahoCorasick
  else if module == "core.algorithms.boyer_moore_search" &&
      cls == "BoyerMooreSearch" then
    some .boyerMoore
  else if module == "core.algorithms.rabin_karp_search" &&
      cls == "RabinKarpSearch" then
    some .rabinKarp
  else if module == "core.algorithms.mmap_search" && cls == "MMapSearch" then
    some .mmap
  else none

/-- The expression `module_name = f"core.algorithms.{algorithm_name.lower()}_search"`. -/
def module_name_of (name : String) : String :=
  "core.algorithms." ++ pyLowerS name ++ "_search"

/-- The expression `class_name = "".join(word.capitalize() for word in
algorithm_name.lower().split()) + "Search"`. -/
def class_name_of (name : String) : String :=
  String.join ((pySplit (pyLower name.data)).map
    (fun w => String.mk (pyCapitalize w))) ++ "Search"

/-- Function `load_search_algorithm`: resolve the module and class from the
configured name; on any exception (module missing, class missing,
construction failure) fall back to `DEFAULT_SEARCH = LinearSearch`. -/
def load_search_algorithm (name : String) : Strategy :=
  match resolveClass (module_name_of name) (class_name_of name) with
  | some s => s
  | none => Strategy.linear

/-! ## Spec-side definitions (for refinement comparisons only) -/

/-- Modelled from the spec's words, NOT from the source, for comparison
with `read_lines`: a stored line is the file line with ONLY the line
terminator removed ("byte-for-byte ... excluding the line terminator"). -/
def chompNewline (l : List Char) : List Char :=
  if l.getLast? = some '\n' then l.dropLast else l

/-- Modelled from the spec's words, NOT from the source: the corpus the
spec describes, every line kept verbatim except for its terminator. -/
def spec_read_lines (content : List Char) : List (List Char) :=
  (splitLinesKeepEnds content).map chompNewline


/-! ## Helper lemmas -/

lemma aho_build_keys (L : List (List Char)) :
    ∀ acc, L.foldl aho_add acc = acc ++ L.filter (fun w => !w.isEmpty) := by
  induction L with
  | nil => simp
  | cons x xs ih =>
    intro acc
    by_cases h : x = []
    · subst h
      simp [aho_add, ih]
    · simp [aho_add, h, ih, List.filter_cons, List.isEmpty_iff]

lemma dropWhile_replicate_append (p : Char → Bool) (c : Char) (hc : p c)
    (k : Nat) (s : List Char) :
    List.dropWhile p (List.replicate k c ++ s) = List.dropWhile p s := by
  induction k with
  | zero => simp
  | succ n ih => simp [List.replicate_succ, List.dropWhile_cons, hc, ih]

lemma dropWhile_replicate_self (p : Char → Bool) (c : Char) (hc : p c)
    (k : Nat) : List.dropWhile p (List.replicate k c) = [] := by
  induction k with
  | zero => simp
  | succ n ih => simp [List.replicate_succ, List.dropWhile_cons, hc, ih]

lemma dropTrailing_append_replicate (p : Char → Bool) (c : Char) (hc : p c)
    (k : Nat) (s : List Char) :
    dropTrailing p (s ++ List.replicate k c) = dropTrailing p s := by
  simp only [dropTrailing, List.reverse_append, List.reverse_replicate]
  rw [dropWhile_replicate_append p c hc]

lemma pyStripPred_append_replicate (p : Char → Bool) (c : Char) (hc : p c)
    (k : Nat) (s : List Char) :
    pyStripPred p (s ++ List.replicate k c) = pyStripPred p s := by
  simp only [pyStripPred, dropLeading]
  rw [List.dropWhile_append]
  by_cases h : (List.dropWhile p s).isEmpty
  · rw [if_pos h]
    rw [List.isEmpty_iff] at h
    rw [h, dropWhile_replicate_self p c hc]
  · rw [if_neg h]
    exact dropTrailing_append_replicate p c hc k _

lemma dropWhile_sandwich (p : Char → Bool) (c : Char)
    (hp : ∀ x, p x = true → x = c) (s : List Char) :
    ∃ a, s = List.replicate a c ++ List.dropWhile p s := by
  induction s with
  | nil => exact ⟨0, rfl⟩
  | cons x xs ih =>
    by_cases h : p x
    · obtain ⟨a, ha⟩ := ih
      have hx := hp x h
      subst hx
      exact ⟨a + 1, by
        rw [List.dropWhile_cons, if_pos h]
        simp [List.replicate_succ, ← ha]⟩
    · exact ⟨0, by simp [List.dropWhile_cons, h]⟩

/-- Every string is a run of characters satisfying `p`, followed by its
`pyStripPred p` core, followed by another such run, when `p` accepts only
the single character `c`. -/
lemma pyStripPred_sandwich (p : Char → Bool) (c : Char)
    (hp : ∀ x, p x = true → x = c) (s : List Char) :
    ∃ a b, s = List.replicate a c ++ pyStripPred p s ++ List.replicate b c := by
  obtain ⟨a, ha⟩ := dropWhile_sandwich p c hp s
  obtain ⟨b, hb⟩ := dropWhile_sandwich p c hp (List.dropWhile p s).reverse
  have hb' : List.dropWhile p s = pyStripPred p s ++ List.replicate b c := by
    have h2 := congrArg List.reverse hb
    rw [List.reverse_reverse, List.reverse_append, List.reverse_replicate]
      at h2
    exact h2
  refine ⟨a, b, ?_⟩
  conv_lhs => rw [ha]
  rw [hb', ← List.append_assoc]

lemma stripNul_sandwich (s : List Char) :
    ∃ a b, s = List.replicate a '\x00' ++ stripNul s ++
      List.replicate b '\x00' :=
  pyStripPred_sandwich _ '\x00' (fun x hx => by simpa using hx) s

lemma stripNul_append_nuls (s : List Char) (k : Nat) :
    stripNul (s ++ List.replicate k '\x00') = stripNul s :=
  pyStripPred_append_replicate _ '\x00' (by simp) k s

/-! ## Claims -/

/-- Claim C1. The claim states that `BoyerMooreSearch.search(q)` and
`RabinKarpSearch.search(q)` return true iff some corpus line equals `q`
exactly.  The code instead reports SUBSTRING containment: on the corpus
`["ab"]` and query `"a"`, both strategies return `True` although no line
equals `"a"`, contradicting the spec's full-line-equality contract (which
the spec itself fixes as the intended behaviour). -/
theorem c1_substring_not_full_line :
    bm_search [['a', 'b']] ['a'] = true ∧
    rk_search [['a', 'b']] ['a'] = true ∧
    ([['a', 'b']].contains ['a']) = false := by
  decide

/-- Claim C2, counterexample.  The claim asserts all three exact-match
strategies return `q ∈ L` and agree pairwise on every input; but
pyahocorasick never stores an empty key, so on a corpus containing a
blank line (stripped to the empty string) the automaton strategy answers
false to the empty query while Linear and Set answer true. -/
theorem c2_counterexample :
    linear_search [[]] [] = true ∧
    set_search (set_build [[]]) [] = true ∧
    aho_search (aho_build [[]]) [] = false := by
  decide

/-- Claim C2, amended: `LinearSearch.search` and `SetSearch.search`
return `q ∈ L` for every query; `AhoCorasickSearch.search` returns
`q ∈ L` for every NONEMPTY query and returns false on the empty query
whatever the corpus (empty keys are never added to the automaton), so
the three strategies agree on all inputs except the empty query over a
corpus that contains an empty line. -/
theorem c2_amended_membership (L : List (List Char)) (q : List Char) :
    (linear_search L q = true ↔ q ∈ L) ∧
    (set_search (set_build L) q = true ↔ q ∈ L) ∧
    (q ≠ [] → (aho_search (aho_build L) q = true ↔ q ∈ L)) ∧
    aho_search (aho_build L) [] = false := by
  refine ⟨?_, ?_, ?_, ?_⟩
  · simp [linear_search, List.any_eq_true, beq_iff_eq]
  · simp [set_search, set_build, List.contains, List.elem_iff]
  · intro hq
    simp [aho_search, aho_build, aho_build_keys, List.contains,
      List.elem_iff, List.mem_filter, List.isEmpty_iff, hq]
  · simp [aho_search, aho_build, aho_build_keys, List.contains,
      List.elem_iff, List.mem_filter]

/-- Witness for C2 at the nonempty query over a matching corpus. -/
theorem c2_witness :
    (['a'] : List Char) ≠ [] ∧
    (aho_search (aho_build [['a']]) ['a'] = true ↔
      (['a'] : List Char) ∈ [['a']]) :=
  ⟨by decide, (c2_amended_membership [['a']] ['a']).2.2.1 (by decide)⟩

/-- Claim C3, counterexample.  The claim states the corpus keeps every
character of each file line except the terminator; but `_read_lines` runs
`line.strip()`, so on the file contents `" a\n"` the stored line is
`"a"`, not `" a"` as the claim requires. -/
theorem c3_counterexample :
    read_lines [' ', 'a', '\n'] = [['a']] ∧
    spec_read_lines [' ', 'a', '\n'] = [[' ', 'a']] ∧
    (read_lines [' ', 'a', '\n'] == spec_read_lines [' ', 'a', '\n']) =
      false := by
  decide

/-- Claim C3, amended: the corpus built by `reload()` consists of the
file's lines with leading and trailing whitespace (including the
terminator) removed, so a query matches a stored line exactly when it
equals that line after `strip()`. -/
theorem c3_amended_strip_semantics (content : List Char) (q : List Char) :
    linear_search (read_lines content) q = true ↔
      ∃ raw ∈ splitLinesKeepEnds content, pyStrip raw = q := by
  simp [linear_search, read_lines, List.any_eq_true, beq_iff_eq]

/-- Claim C4: with `reread_on_query=true` the corpus is rebuilt from the
file before every search, so after the file changes from `f1` to `f2` the
second query's result is membership in the rewritten file's lines — no
stale caching, whatever corpus state the engine started from. -/
theorem c4_reread_reflects_rewrite (f1 f2 : List Char)
    (st : List (List Char)) (q1 q2 : List Char) :
    (server_query true f2 linear_search
        (server_query true f1 linear_search st q1).2 q2).1 = true ↔
      q2 ∈ read_lines f2 := by
  simp [server_query, reread_wrap, linear_search, List.any_eq_true,
    beq_iff_eq]

/-- Claim C5: whenever the received bytes decode to a string that is empty
after NUL-stripping (so in particular the empty string and all-NUL
padding), the handler answers `"STRING NOT FOUND\n"` and neither
`reload_data` nor `search` is invoked, for every `reread_on_query` setting
and every engine behaviour. -/
theorem c5_empty_query_short_circuit (reread : Bool) (s : List Char)
    (rb : ExcBeh) (sb : SearchBeh) (h : stripNul s = []) :
    handle_client reread (.ok s) rb sb =
      ⟨some "STRING NOT FOUND\n", false, false, none, false⟩ := by
  simp [handle_client, h]

/-- Witness for C5 at a concrete all-NUL input with adversarial engine
behaviour. -/
theorem c5_witness :
    stripNul ['\x00', '\x00'] = [] ∧
    handle_client true (.ok ['\x00', '\x00']) .sysExit .exc =
      ⟨some "STRING NOT FOUND\n", false, false, none, false⟩ :=
  ⟨by decide, c5_empty_query_short_circuit true ['\x00', '\x00'] .sysExit .exc
    (by decide)⟩

/-- Claim C7: with `reread_on_query=false` a server query is the pure
search function applied to the startup corpus — the corpus representation
is left untouched and repeated calls with the same query return the same
result, for every strategy body `searchFn`. -/
theorem c7_idempotent_no_reread (file : List Char)
    (searchFn : List (List Char) → List Char → Bool)
    (st : List (List Char)) (q : List Char) :
    server_query false file searchFn st q = (searchFn st q, st) ∧
    (server_query false file searchFn
        (server_query false file searchFn st q).2 q).1 =
      (server_query false file searchFn st q).1 := by
  exact ⟨rfl, rfl⟩

/-- Claim C8, counterexample.  The claim asserts every reload I/O
failure exits the process with code 1; but under `reread_on_query` (the
`ServerConfig` default) the reload runs inside a thread-pool worker,
whose loop captures the `SystemExit` into the `Future`: the process
keeps serving and no exit with code 1 occurs. -/
theorem c8_counterexample :
    reload_failure_outcome .workerThread .linear .ioError =
      ProcessOutcome.running ∧
    (reload_failure_outcome .workerThread .linear .ioError ==
        ProcessOutcome.exited 1) = false := by
  decide

/-- Claim C8, amended: for every strategy, an I/O failure while reading
`corpus_path` makes `reload` raise `SystemExit(1)` — it never returns
normally with a corpus after a failed read; raised on the main thread
(the startup reload) this terminates the process with exit code 1, while
inside a thread-pool worker (a reread-on-query request) the exception is
captured by the pool and the process keeps serving. -/
theorem c8_amended_reload_exit (k : StratKind) :
    reload_data k .ioError = Except.error 1 ∧
    reload_failure_outcome .mainThread k .ioError = .exited 1 ∧
    reload_failure_outcome .workerThread k .ioError = .running := by
  cases k <;> exact ⟨rfl, rfl, rfl⟩

/-- Claim C6, counterexample.  The claim states only TRAILING NUL padding
is removed, so a decoded query with a leading NUL should reach the engine
unchanged; but `.strip("\x00")` strips both ends: on the decoded input
`"\x00foo"` the engine receives `"foo"`, not the `"\x00foo"` the
trailing-only contract requires. -/
theorem c6_counterexample :
    (handle_client false (.ok ['\x00', 'f', 'o', 'o']) .normal
        (.ret false)).queryPassed = some ['f', 'o', 'o'] ∧
    (some ['f', 'o', 'o'] ==
        some (dropTrailing (· == '\x00') ['\x00', 'f', 'o', 'o'])) =
      false := by
  decide

/-- Claim C6, amended: the query handed to the engine is the UTF-8
decoding of the received chunk with the maximal runs of NUL bytes removed
from BOTH ends, and appending NUL padding to a request does not change the
handler's behaviour at all. -/
theorem c6_amended_nul_strip (reread : Bool) (s : List Char)
    (sb : SearchBeh) (k : Nat) (h : stripNul s ≠ []) :
    (handle_client reread (.ok s) .normal sb).queryPassed =
      some (stripNul s) ∧
    (∃ a b, s = List.replicate a '\x00' ++ stripNul s ++
      List.replicate b '\x00') ∧
    handle_client reread (.ok (s ++ List.replicate k '\x00')) .normal sb =
      handle_client reread (.ok s) .normal sb := by
  refine ⟨?_, stripNul_sandwich s, ?_⟩
  · have hq : ∀ (rc : Bool) (sb2 : SearchBeh),
        (run_search rc (stripNul s) sb2).queryPassed = some (stripNul s) := by
      intro rc sb2
      cases sb2 with
      | ret b => cases b <;> rfl
      | exc => rfl
      | sysExit => rfl
    cases reread <;> simp [handle_client, h, hq]
  · simp [handle_client, stripNul_append_nuls]

/-- Witness for C6 at a NUL-sandwiched concrete input. -/
theorem c6_witness :
    stripNul ['\x00', 'f', 'o', 'o', '\x00'] ≠ [] ∧
    (handle_client true (.ok ['\x00', 'f', 'o', 'o', '\x00']) .normal
        (.ret true)).queryPassed =
      some (stripNul ['\x00', 'f', 'o', 'o', '\x00']) :=
  ⟨by decide,
    (c6_amended_nul_strip true ['\x00', 'f', 'o', 'o', '\x00'] (.ret true) 2
      (by decide)).1⟩

set_option maxHeartbeats 1000000 in
/-- Claim C9, counterexample.  The claim states name resolution is
whitespace-normalized, so `"set "` should resolve to the same strategy as
`"set"`; but the module name is built from the raw lowered string, so
`"set "` fails the import and falls back to Linear while `"set"` resolves
to Set. -/
theorem c9_counterexample :
    load_search_algorithm "set" = Strategy.set ∧
    load_search_algorithm "set " = Strategy.linear ∧
    (load_search_algorithm "set" == load_search_algorithm "set ") =
      false := by
  decide

/-- Claim C9, amended: resolution is case-insensitive — any two configured
names with the same `lower()` image resolve to the same strategy — and
every name whose module/class lookup fails (unknown names, and any
whitespace variation, which breaks the module path) resolves to the
Linear fallback; resolution always returns a strategy, never exits. -/
theorem c9_amended_resolution :
    (∀ n1 n2 : String, pyLowerS n1 = pyLowerS n2 →
      load_search_algorithm n1 = load_search_algorithm n2) ∧
    (∀ n : String,
      resolveClass (module_name_of n) (class_name_of n) = none →
      load_search_algorithm n = Strategy.linear) := by
  constructor
  · intro n1 n2 h
    have hd : pyLower n1.data = pyLower n2.data := by
      have h2 := congrArg String.data h
      simpa [pyLowerS] using h2
    have hm : module_name_of n1 = module_name_of n2 := by
      unfold module_name_of
      rw [h]
    have hc : class_name_of n1 = class_name_of n2 := by
      unfold class_name_of
      rw [hd]
    unfold load_search_algorithm
    rw [hm, hc]
  · intro n h
    unfold load_search_algorithm
    rw [h]

set_option maxHeartbeats 1000000 in
/-- Witness for C9: case-insensitivity at `"SET"`/`"set"` and the Linear
fallback at the unknown name `"nope"`. -/
theorem c9_witness :
    load_search_algorithm "SET" = load_search_algorithm "set" ∧
    load_search_algorithm "nope" = Strategy.linear :=
  ⟨c9_amended_resolution.1 "SET" "set" (by decide),
    c9_amended_resolution.2 "nope" (by decide)⟩

/-- Claim C10, counterexample.  The claim states every exception other
than a read timeout raised during receive/decode/reload/search/respond is
caught inside the handler and answered with the generic error line.  But
a corpus-reload I/O failure raises `SystemExit` (via `sys.exit(1)`),
which `except Exception` does not catch: with `reread_on_query` set and a
non-empty query, the handler sends nothing and the exception escapes. -/
theorem c10_counterexample :
    (handle_client true (.ok ['f', 'o', 'o']) .sysExit
        (.ret false)).propagates = true ∧
    (handle_client true (.ok ['f', 'o', 'o']) .sysExit
        (.ret false)).response = none ∧
    ((handle_client true (.ok ['f', 'o', 'o']) .sysExit
        (.ret false)).response == some errLine) = false := by
  decide

/-- Claim C10, amended: every exception of Python's `Exception` hierarchy
(decode failures, engine `Exception`s such as an invalid regex pattern)
other than a read timeout is caught inside the handler and answered with
the generic error line, and the handler returns normally; only the
`SystemExit` of a failed reload escapes. -/
theorem c10_amended_exception_catch (reread : Bool) (s : List Char)
    (rb : ExcBeh) (sb : SearchBeh) :
    handle_client reread .decodeFail rb sb =
      ⟨some errLine, false, false, none, false⟩ ∧
    (stripNul s ≠ [] →
      handle_client true (.ok s) .exc sb =
        ⟨some errLine, true, false, none, false⟩) ∧
    (stripNul s ≠ [] →
      handle_client reread (.ok s) .normal .exc =
        ⟨some errLine, reread, true, some (stripNul s), false⟩) := by
  refine ⟨rfl, ?_, ?_⟩
  · intro h
    simp [handle_client, h]
  · intro h
    cases reread <;> simp [handle_client, h, run_search]

/-- Witness for C10: a decode failure, a reload `Exception`, and a search
`Exception` (e.g. `re.error`) at a concrete query are all answered with
the generic error line and do not propagate. -/
theorem c10_witness :
    handle_client true .decodeFail .exc (.ret true) =
      ⟨some errLine, false, false, none, false⟩ ∧
    handle_client true (.ok ['q']) .exc (.ret true) =
      ⟨some errLine, true, false, none, false⟩ ∧
    handle_client true (.ok ['q']) .normal .exc =
      ⟨some errLine, true, true, some (stripNul ['q']), false⟩ := by
  have h := c10_amended_exception_catch true ['q'] ExcBeh.exc (.ret true)
  exact ⟨h.1, h.2.1 (by decide), h.2.2 (by decide)⟩

end GetMeThatString
